/-
  Verification of the WebSocket session core of the mexc-futures-sdk
  repository (src/src/websocket.ts, class MexcFuturesWebSocket), against its
  natural-language specification.

  The TypeScript code is shallowly embedded: the session object's mutable
  fields become a `SessionState` record, each method and event handler becomes
  a pure function on that record (returning emitted events and outbound frames
  explicitly), and functions that `throw` return `Except String`.  Machine
  integers are `Nat` with explicit `% 2 ^ 32` where 32-bit wrap-around matters
  (the SHA-256 core).  `crypto.createHmac("sha256", k).update(m).digest("hex")`
  is embedded as a full executable HMAC-SHA256 over UTF-8 byte lists.
-/
import Mathlib

namespace MexcWS

/-! ## Byte-level primitives: UTF-8, SHA-256, HMAC, hex

The login path (websocket.ts lines 140-148) computes
`crypto.createHmac("sha256", secretKey).update(apiKey + reqTime).digest("hex")`.
Node's `Hmac.update` on a string uses UTF-8; we embed the whole pipeline. -/

/-- UTF-8 encoding of one character, as the standard encoder (and Node) emit it. -/
def charBytes (c : Char) : List Nat :=
  let n := c.toNat
  if n < 0x80 then [n]
  else if n < 0x800 then
    [0xC0 ||| (n >>> 6), 0x80 ||| (n &&& 0x3F)]
  else if n < 0x10000 then
    [0xE0 ||| (n >>> 12), 0x80 ||| ((n >>> 6) &&& 0x3F), 0x80 ||| (n &&& 0x3F)]
  else
    [0xF0 ||| (n >>> 18), 0x80 ||| ((n >>> 12) &&& 0x3F),
     0x80 ||| ((n >>> 6) &&& 0x3F), 0x80 ||| (n &&& 0x3F)]

/-- UTF-8 bytes of a string. -/
def strBytes (s : String) : List Nat :=
  s.data.flatMap charBytes

/-- 32-bit truncation. -/
def m32 (n : Nat) : Nat := n % 2 ^ 32

/-- 32-bit right rotation. -/
def rotr32 (k x : Nat) : Nat := m32 ((x >>> k) ||| (x <<< (32 - k)))

/-- SHA-256 round constants (FIPS 180-4 §4.2.2), eight per row. -/
def shaK : List Nat := List.flatten
  [[0x428a2f98, 0x71374491, 0xb5c0fbcf, 0xe9b5dba5, 0x3956c25b, 0x59f111f1, 0x923f82a4, 0xab1c5ed5],
   [0xd807aa98, 0x12835b01, 0x243185be, 0x550c7dc3, 0x72be5d74, 0x80deb1fe, 0x9bdc06a7, 0xc19bf174],
   [0xe49b69c1, 0xefbe4786, 0x0fc19dc6, 0x240ca1cc, 0x2de92c6f, 0x4a7484aa, 0x5cb0a9dc, 0x76f988da],
   [0x983e5152, 0xa831c66d, 0xb00327c8, 0xbf597fc7, 0xc6e00bf3, 0xd5a79147, 0x06ca6351, 0x14292967],
   [0x27b70a85, 0x2e1b2138, 0x4d2c6dfc, 0x53380d13, 0x650a7354, 0x766a0abb, 0x81c2c92e, 0x92722c85],
   [0xa2bfe8a1, 0xa81a664b, 0xc24b8b70, 0xc76c51a3, 0xd192e819, 0xd6990624, 0xf40e3585, 0x106aa070],
   [0x19a4c116, 0x1e376c08, 0x2748774c, 0x34b0bcb5, 0x391c0cb3, 0x4ed8aa4a, 0x5b9cca4f, 0x682e6ff3],
   [0x748f82ee, 0x78a5636f, 0x84c87814, 0x8cc70208, 0x90befffa, 0xa4506ceb, 0xbef9a3f7, 0xc67178f2]]

/-- SHA-256 initial hash value. -/
def shaH0 : List Nat :=
  [0x6a09e667, 0xbb67ae85, 0x3c6ef372, 0xa54ff53a,
   0x510e527f, 0x9b05688c, 0x1f83d9ab, 0x5be0cd19]

/-- Big-endian 32-bit word from four bytes. -/
def word32 (b0 b1 b2 b3 : Nat) : Nat :=
  (b0 <<< 24) ||| (b1 <<< 16) ||| (b2 <<< 8) ||| b3

/-- Message schedule: expand the 16 block words to 64. -/
def shaSchedule (w16 : List Nat) : List Nat :=
  (List.range 48).foldl
    (fun w _ =>
      let L := w.length
      let s0 :=
        Nat.xor (Nat.xor (rotr32 7 (w.getD (L - 15) 0)) (rotr32 18 (w.getD (L - 15) 0)))
          ((w.getD (L - 15) 0) >>> 3)
      let s1 :=
        Nat.xor (Nat.xor (rotr32 17 (w.getD (L - 2) 0)) (rotr32 19 (w.getD (L - 2) 0)))
          ((w.getD (L - 2) 0) >>> 10)
      w ++ [m32 (w.getD (L - 16) 0 + s0 + w.getD (L - 7) 0 + s1)])
    w16

/-- The eight working registers of the compression loop. -/
structure Regs where
  a : Nat
  b : Nat
  c : Nat
  d : Nat
  e : Nat
  f : Nat
  g : Nat
  h : Nat
deriving Repr, DecidableEq

/-- One round of the SHA-256 compression function. -/
def shaRound (w : List Nat) (r : Regs) (i : Nat) : Regs :=
  let S1 := Nat.xor (Nat.xor (rotr32 6 r.e) (rotr32 11 r.e)) (rotr32 25 r.e)
  let ch := Nat.xor (Nat.land r.e r.f) (Nat.land ((2 ^ 32 - 1) - r.e) r.g)
  let t1 := m32 (r.h + S1 + ch + shaK.getD i 0 + w.getD i 0)
  let S0 := Nat.xor (Nat.xor (rotr32 2 r.a) (rotr32 13 r.a)) (rotr32 22 r.a)
  let mj := Nat.xor (Nat.xor (Nat.land r.a r.b) (Nat.land r.a r.c)) (Nat.land r.b r.c)
  let t2 := m32 (S0 + mj)
  ⟨m32 (t1 + t2), r.a, r.b, r.c, m32 (r.d + t1), r.e, r.f, r.g⟩

/-- Compress one 64-byte block into the running hash (a list of 8 words). -/
def shaCompress (h : List Nat) (block : List Nat) : List Nat :=
  let w16 := (List.range 16).map (fun i =>
    word32 (block.getD (4 * i) 0) (block.getD (4 * i + 1) 0)
      (block.getD (4 * i + 2) 0) (block.getD (4 * i + 3) 0))
  let w := shaSchedule w16
  let r0 : Regs :=
    ⟨h.getD 0 0, h.getD 1 0, h.getD 2 0, h.getD 3 0,
     h.getD 4 0, h.getD 5 0, h.getD 6 0, h.getD 7 0⟩
  let r := (List.range 64).foldl (shaRound w) r0
  [m32 (h.getD 0 0 + r.a), m32 (h.getD 1 0 + r.b), m32 (h.getD 2 0 + r.c),
   m32 (h.getD 3 0 + r.d), m32 (h.getD 4 0 + r.e), m32 (h.getD 5 0 + r.f),
   m32 (h.getD 6 0 + r.g), m32 (h.getD 7 0 + r.h)]

/-- SHA-256 padding: append 0x80, zeros, and the 64-bit big-endian bit length. -/
def shaPad (msg : List Nat) : List Nat :=
  let len := msg.length
  let zeros := (64 - (len + 9) % 64) % 64
  let bits := len * 8
  msg ++ [0x80] ++ List.replicate zeros 0 ++
    [(bits >>> 56) &&& 0xFF, (bits >>> 48) &&& 0xFF, (bits >>> 40) &&& 0xFF,
     (bits >>> 32) &&& 0xFF, (bits >>> 24) &&& 0xFF, (bits >>> 16) &&& 0xFF,
     (bits >>> 8) &&& 0xFF, bits &&& 0xFF]

/-- Split a padded message into 64-byte blocks. -/
def chunksAux : Nat → List Nat → List (List Nat)
  | 0, _ => []
  | n + 1, l => l.take 64 :: chunksAux n (l.drop 64)

/-- SHA-256 of a byte list, as a list of 32 bytes. -/
def sha256 (msg : List Nat) : List Nat :=
  let padded := shaPad msg
  let blocks := chunksAux (padded.length / 64) padded
  let h := blocks.foldl shaCompress shaH0
  h.flatMap (fun wrd =>
    [(wrd >>> 24) &&& 0xFF, (wrd >>> 16) &&& 0xFF, (wrd >>> 8) &&& 0xFF, wrd &&& 0xFF])

/-- HMAC-SHA256 (RFC 2104) over byte lists, as `crypto.createHmac("sha256", _)`
computes it: keys longer than the 64-byte block are first hashed, then
zero-padded to the block size. -/
def hmacSha256 (key msg : List Nat) : List Nat :=
  let k1 := if 64 < key.length then sha256 key else key
  let k := k1 ++ List.replicate (64 - k1.length) 0
  let ipad := k.map (fun b => Nat.xor b 0x36)
  let opad := k.map (fun b => Nat.xor b 0x5c)
  sha256 (opad ++ sha256 (ipad ++ msg))

/-- Lower-case hex digit. -/
def hexDigit (n : Nat) : Char :=
  "0123456789abcdef".data.getD n '0'

/-- Lower-case hex encoding of a byte list, as `.digest("hex")` renders it. -/
def hexOfBytes (bs : List Nat) : String :=
  String.mk (bs.flatMap (fun b => [hexDigit (b / 16), hexDigit (b % 16)]))

/-! ## Data model

`WebSocketConfig` (websocket.ts lines 5-11) after the constructor's defaulting
(lines 53-61).  `WebSocketMessage` (lines 36-42): `data` is an `any`-typed
payload of which the router only ever inspects the truthiness of `.success`,
so it is modelled as an optional record of that flag plus an opaque identity
tag; `param` carries either login or filter parameters (lines 150-158 and
172-177). -/

structure WebSocketConfig where
  apiKey : String
  secretKey : String
  autoReconnect : Bool
  reconnectInterval : Nat
  pingInterval : Nat
deriving Repr, DecidableEq

/-- One entry of the `filters` array of `personal.filter` (lines 20-34). -/
structure FilterEntry where
  filter : String
  rules : Option (List String) := none
deriving Repr, DecidableEq

/-- The `data` member of an inbound message: the router reads only the
truthiness of `data && data.success`; `payload` tags the rest of the value so
that events can be seen to carry the payload unchanged. -/
structure MsgData where
  success : Bool
  payload : Nat
deriving Repr, DecidableEq

/-- The `param` member of an outbound message. -/
inductive ParamVal where
  | loginP (apiKey signature reqTime : String)
  | filterP (filters : List FilterEntry)
deriving Repr, DecidableEq

/-- `WebSocketMessage` (lines 36-42). -/
structure WebSocketMessage where
  method : Option String := none
  channel : Option String := none
  data : Option MsgData := none
  param : Option ParamVal := none
  subscribe : Option Bool := none
deriving Repr, DecidableEq

/-- Argument of an emitted `error` event: the caught parse exception, the
`new Error(message.data)` of the `rs.error` branch, or a transport error. -/
inductive ErrVal where
  | parseErr (e : String)
  | rsErr (d : Option MsgData)
  | wsErr (e : String)
deriving Repr, DecidableEq

/-- The events the class emits (every `this.emit(...)` site). -/
inductive Event where
  | connected
  | disconnected (code : Nat) (reason : String)
  | pong (d : Option MsgData)
  | login (d : Option MsgData)
  | loginError (d : Option MsgData)
  | errorEv (e : ErrVal)
  | orderUpdate (d : Option MsgData)
  | orderDeal (d : Option MsgData)
  | positionUpdate (d : Option MsgData)
  | assetUpdate (d : Option MsgData)
  | adlLevel (d : Option MsgData)
  | riskLimit (d : Option MsgData)
  | planOrder (d : Option MsgData)
  | stopOrder (d : Option MsgData)
  | stopPlanOrder (d : Option MsgData)
  | messageEv (m : WebSocketMessage)
deriving Repr, DecidableEq

/-- A transport handle (`ws` instance): identity plus readyState
(0 = CONNECTING, 1 = OPEN, 2 = CLOSING, 3 = CLOSED). -/
structure Transport where
  id : Nat
  readyState : Nat
deriving Repr, DecidableEq

/-- The mutable fields of `MexcFuturesWebSocket` (lines 45-50), plus
bookkeeping that makes resource claims statable: `livePing`/`liveReconnect`
are the identities of timers created and not yet cancelled or expired,
`liveWs` the identities of transports created and not yet closed, and
`nextTimerId`/`nextWsId` are allocation counters. -/
structure SessionState where
  ws : Option Transport
  pingTimer : Option Nat
  reconnectTimer : Option Nat
  isConnected : Bool
  isLoggedIn : Bool
  config : WebSocketConfig
  livePing : List Nat
  liveReconnect : List Nat
  liveWs : List Nat
  nextTimerId : Nat
  nextWsId : Nat
deriving Repr, DecidableEq

/-- The constructor (lines 53-61): no network activity, defaults merged by the
caller into `cfg`. -/
def mkSession (cfg : WebSocketConfig) : SessionState :=
  { ws := none, pingTimer := none, reconnectTimer := none,
    isConnected := false, isLoggedIn := false, config := cfg,
    livePing := [], liveReconnect := [], liveWs := [],
    nextTimerId := 0, nextWsId := 0 }

/-! ## Operations (methods and event handlers) -/

/-- `stopPing` (lines 361-366): cancel the interval if one is held. -/
def stopPing (s : SessionState) : SessionState :=
  match s.pingTimer with
  | none => s
  | some h => { s with pingTimer := none, livePing := s.livePing.erase h }

/-- `clearReconnectTimer` (lines 391-396). -/
def clearReconnectTimer (s : SessionState) : SessionState :=
  match s.reconnectTimer with
  | none => s
  | some h => { s with reconnectTimer := none, liveReconnect := s.liveReconnect.erase h }

/-- `startPing` (lines 349-356): always stops the prior interval first, then
allocates a fresh one. -/
def startPing (s : SessionState) : SessionState :=
  let s1 := stopPing s
  { s1 with pingTimer := some s1.nextTimerId,
            livePing := s1.nextTimerId :: s1.livePing,
            nextTimerId := s1.nextTimerId + 1 }

/-- `scheduleReconnect` (lines 371-386): always clears the prior timeout
first, then allocates a fresh one. -/
def scheduleReconnect (s : SessionState) : SessionState :=
  let s1 := clearReconnectTimer s
  { s1 with reconnectTimer := some s1.nextTimerId,
            liveReconnect := s1.nextTimerId :: s1.liveReconnect,
            nextTimerId := s1.nextTimerId + 1 }

/-- The synchronous body of `connect()` (lines 66-71): unconditionally create
a fresh transport (readyState CONNECTING) and overwrite `this.ws`.  There is
no check of the current connection status. -/
def connectCall (s : SessionState) : SessionState :=
  { s with ws := some ⟨s.nextWsId, 0⟩,
           liveWs := s.nextWsId :: s.liveWs,
           nextWsId := s.nextWsId + 1 }

/-- The library marks the session's current socket OPEN just before its
`open` event fires; a late `open` from a socket the session no longer
references touches no session field. -/
def wsMarkOpen (s : SessionState) : SessionState :=
  match s.ws with
  | some t => { s with ws := some { t with readyState := 1 } }
  | none => s

/-- The `open` handler (lines 72-78): set `isConnected`, start the heartbeat,
emit `connected`.  The handler checks nothing about the session's current
desired state. -/
def openHandler (s : SessionState) : SessionState × List Event :=
  let s1 := { s with isConnected := true }
  let s2 := startPing s1
  (s2, [Event.connected])

/-- A transport `open` notification: library state change, then the handler. -/
def openEvent (s : SessionState) : SessionState × List Event :=
  openHandler (wsMarkOpen s)

/-- The `close` handler (lines 90-100) for the socket with identity `cid`:
clear the connection and login flags, stop the heartbeat, emit
`disconnected`, and schedule a reconnect iff auto-reconnect is on.  The
closed socket is no longer live. -/
def closeHandler (code : Nat) (reason : String) (cid : Nat) (s : SessionState) :
    SessionState × List Event :=
  let s1 := { s with isConnected := false, isLoggedIn := false,
                     liveWs := s.liveWs.erase cid }
  let s2 := stopPing s1
  let s3 := if s2.config.autoReconnect then scheduleReconnect s2 else s2
  (s3, [Event.disconnected code reason])

/-- `disconnect()` (lines 116-129). -/
def disconnectCall (s : SessionState) : SessionState :=
  let s1 := { s with config := { s.config with autoReconnect := false } }
  let s2 := clearReconnectTimer (stopPing s1)
  let s3 :=
    match s2.ws with
    | some t => { s2 with ws := none, liveWs := s2.liveWs.erase t.id }
    | none => s2
  { s3 with isConnected := false, isLoggedIn := false }

/-- Whether `this.ws && this.ws.readyState === WebSocket.OPEN` holds. -/
def wsOpen (s : SessionState) : Bool :=
  match s.ws with
  | some t => t.readyState == 1
  | none => false

/-- `send` (lines 257-265): throws unless the transport exists and is OPEN;
otherwise the serialized message goes out as one frame.  No session field is
mutated. -/
def sendMsg (s : SessionState) (m : WebSocketMessage) :
    Except String (SessionState × List WebSocketMessage) :=
  if wsOpen s then Except.ok (s, [m])
  else Except.error "WebSocket not connected"

/-- The login signature (lines 140-148):
`crypto.createHmac("sha256", secretKey).update(apiKey + reqTime).digest("hex")`. -/
def loginSignature (apiKey secretKey reqTime : String) : String :=
  hexOfBytes (hmacSha256 (strBytes secretKey) (strBytes (apiKey ++ reqTime)))

/-- `login(subscribe)` (lines 135-161).  `reqTime` is the caller-clock input
(`Date.now().toString()`).  Throws before any frame when not connected. -/
def loginCall (subscribe : Bool) (reqTime : String) (s : SessionState) :
    Except String (SessionState × List WebSocketMessage) :=
  if s.isConnected = false then Except.error "WebSocket not connected"
  else
    sendMsg s
      { method := some "login", subscribe := some subscribe,
        param := some (ParamVal.loginP s.config.apiKey
          (loginSignature s.config.apiKey s.config.secretKey reqTime) reqTime) }

/-- `setPersonalFilter(filters)` (lines 167-180): throws before any frame when
not logged in; `filters || []` forwards an absent list as the empty list. -/
def setPersonalFilter (filters : Option (List FilterEntry)) (s : SessionState) :
    Except String (SessionState × List WebSocketMessage) :=
  if s.isLoggedIn = false then Except.error "Must login first before setting filters"
  else
    sendMsg s
      { method := some "personal.filter",
        param := some (ParamVal.filterP (filters.getD [])) }

/-- `subscribeToOrders` (lines 185-192). -/
def subscribeToOrders (symbols : Option (List String)) (s : SessionState) :
    Except String (SessionState × List WebSocketMessage) :=
  setPersonalFilter (some [{ filter := "order", rules := symbols }]) s

/-- `subscribeToOrderDeals` (lines 197-204). -/
def subscribeToOrderDeals (symbols : Option (List String)) (s : SessionState) :
    Except String (SessionState × List WebSocketMessage) :=
  setPersonalFilter (some [{ filter := "order.deal", rules := symbols }]) s

/-- `subscribeToPositions` (lines 209-216). -/
def subscribeToPositions (symbols : Option (List String)) (s : SessionState) :
    Except String (SessionState × List WebSocketMessage) :=
  setPersonalFilter (some [{ filter := "position", rules := symbols }]) s

/-- `subscribeToAssets` (lines 221-227). -/
def subscribeToAssets (s : SessionState) :
    Except String (SessionState × List WebSocketMessage) :=
  setPersonalFilter (some [{ filter := "asset" }]) s

/-- `subscribeToADLLevels` (lines 232-238). -/
def subscribeToADLLevels (s : SessionState) :
    Except String (SessionState × List WebSocketMessage) :=
  setPersonalFilter (some [{ filter := "adl.level" }]) s

/-- `subscribeToMultiple` (lines 243-245). -/
def subscribeToMultiple (filters : List FilterEntry) (s : SessionState) :
    Except String (SessionState × List WebSocketMessage) :=
  setPersonalFilter (some filters) s

/-- `subscribeToAll` (lines 250-252). -/
def subscribeToAll (s : SessionState) :
    Except String (SessionState × List WebSocketMessage) :=
  setPersonalFilter (some []) s

/-- `handlePrivateDataUpdate` (lines 309-344): switch on `method`; the default
arm emits the catch-all `message` event with the whole decoded message. -/
def handlePrivateDataUpdate (s : SessionState) (m : WebSocketMessage) :
    SessionState × List Event :=
  if m.method = some "order.update" then (s, [Event.orderUpdate m.data])
  else if m.method = some "order.deal" then (s, [Event.orderDeal m.data])
  else if m.method = some "position.update" then (s, [Event.positionUpdate m.data])
  else if m.method = some "asset.update" then (s, [Event.assetUpdate m.data])
  else if m.method = some "adl.level" then (s, [Event.adlLevel m.data])
  else if m.method = some "risk.limit" then (s, [Event.riskLimit m.data])
  else if m.method = some "plan.order" then (s, [Event.planOrder m.data])
  else if m.method = some "stop.order" then (s, [Event.stopOrder m.data])
  else if m.method = some "stop.planorder" then (s, [Event.stopPlanOrder m.data])
  else (s, [Event.messageEv m])

/-- Truthiness of `message.data && message.data.success` (line 284). -/
def dataSuccess (d : Option MsgData) : Bool :=
  match d with
  | some v => v.success
  | none => false

/-- `handleMessage` (lines 270-304): pong, then login acknowledgment, then
`rs.error`, then private-data dispatch. -/
def handleMessage (s : SessionState) (m : WebSocketMessage) :
    SessionState × List Event :=
  if m.channel = some "pong" then (s, [Event.pong m.data])
  else if m.method = some "login" then
    if dataSuccess m.data then
      ({ s with isLoggedIn := true }, [Event.login m.data])
    else (s, [Event.loginError m.data])
  else if m.channel = some "rs.error" then
    (s, [Event.errorEv (ErrVal.rsErr m.data)])
  else handlePrivateDataUpdate s m

/-- The `message` handler (lines 80-88): the result of `JSON.parse` either
succeeds with a decoded message, handled by `handleMessage`, or throws, in
which case the exception is caught and re-emitted as one `error` event and the
session is untouched. -/
def rawMessage (s : SessionState) (r : Except String WebSocketMessage) :
    SessionState × List Event :=
  match r with
  | Except.ok m => handleMessage s m
  | Except.error e => (s, [Event.errorEv (ErrVal.parseErr e)])

/-- The `error` handler (lines 102-106): emit, reject; no state change. -/
def errorHandler (e : String) (s : SessionState) : SessionState × List Event :=
  (s, [Event.errorEv (ErrVal.wsErr e)])

/-- One firing of the heartbeat interval (lines 351-355): send a ping only if
`isConnected`; `send` may throw.  The interval repeats, so the timer is not
consumed and no session field changes. -/
def pingFire (s : SessionState) :
    Except String (SessionState × List WebSocketMessage) :=
  if s.isConnected then sendMsg s { method := some "ping" }
  else Except.ok (s, [])

/-- One firing of the reconnect timeout (lines 377-385): the timer expires
(identity `h` leaves the live set); the callback calls `connect()` again only
if still disconnected with auto-reconnect on. -/
def reconnectFire (h : Nat) (s : SessionState) : SessionState :=
  let s1 := { s with liveReconnect := s.liveReconnect.erase h }
  if s1.isConnected = false ∧ s1.config.autoReconnect then connectCall s1 else s1

/-! ## Reachability and the timer invariant

Every mutation the class can undergo is one of the following atomic steps:
a `connect()` call, a transport `open`/`close`/`error` notification, a
`message` notification (parsed or failing to parse), a `disconnect()` call, a
heartbeat-interval firing (which mutates nothing), a reconnect-timeout firing,
and the `.catch` of a failed reconnect attempt (line 382), which re-schedules.
`login` and the filter helpers mutate no session field, so they contribute no
step. -/

inductive Step : SessionState → SessionState → Prop where
  | connect (s : SessionState) : Step s (connectCall s)
  | openEv (s : SessionState) : Step s (openEvent s).1
  | closeEv (code : Nat) (reason : String) (cid : Nat) (s : SessionState) :
      Step s (closeHandler code reason cid s).1
  | msgEv (r : Except String WebSocketMessage) (s : SessionState) :
      Step s (rawMessage s r).1
  | disconnect (s : SessionState) : Step s (disconnectCall s)
  | pingFired (s : SessionState) : Step s s
  | reconnectFired (h : Nat) (s : SessionState) : Step s (reconnectFire h s)
  | reconnectFailed (s : SessionState) : Step s (scheduleReconnect s)

/-- States reachable from a freshly constructed session. -/
def Reachable (cfg : WebSocketConfig) (s : SessionState) : Prop :=
  Relation.ReflTransGen Step (mkSession cfg) s

/-- The live timers of each kind are exactly the held handle (or already
gone): the code's cancel-before-replace discipline. -/
def TimerInv (s : SessionState) : Prop :=
  (s.livePing = [] ∨ s.livePing = s.pingTimer.toList) ∧
  (s.liveReconnect = [] ∨ s.liveReconnect = s.reconnectTimer.toList)

/-! ## Spec-side definitions and concrete fixtures -/

/-- The signature as the spec words it (§4.1): "a signature = HMAC-SHA256 over
the concatenation apiKey || timestamp, keyed by the secret, hex-encoded". -/
def specSignature (apiKey secret timestamp : String) : String :=
  hexOfBytes (hmacSha256 (strBytes secret) (strBytes apiKey ++ strBytes timestamp))

/-- A concrete configuration (the constructor's defaults). -/
def wcfg : WebSocketConfig :=
  { apiKey := "k", secretKey := "s", autoReconnect := true,
    reconnectInterval := 5000, pingInterval := 15000 }

/-- Builder for a fully explicit inbound message. -/
def mkMsg (mth ch : Option String) (d : Option MsgData) (p : Option ParamVal)
    (sub : Option Bool) : WebSocketMessage :=
  { method := mth, channel := ch, data := d, param := p, subscribe := sub }

/-- A filter-set acknowledgment as the exchange would shape it: the method of
the originating `personal.filter` request with a success payload on its
response channel. -/
def filterAckMsg : WebSocketMessage :=
  mkMsg (some "personal.filter") (some "rs.personal.filter") (some ⟨true, 0⟩)
    none none

/-- A session that has connected and seen its transport open. -/
def connectedSession : SessionState :=
  (openEvent (connectCall (mkSession wcfg))).1

/-- A session whose `connect()` is still pending when `disconnect()` is
called. -/
def disconnectedWhileConnecting : SessionState :=
  disconnectCall (connectCall (mkSession wcfg))

/-! ## Theorems -/

set_option maxRecDepth 100000

theorem strBytes_append (a b : String) :
    strBytes (a ++ b) = strBytes a ++ strBytes b := by
  simp [strBytes, String.data_append]

/-- Sanity check: SHA-256 of the empty message (FIPS 180-4 test vector). -/
theorem sha256_empty_vector :
    hexOfBytes (sha256 []) =
      "e3b0c44298fc1c149afbf4c8996fb92427ae41e4649b934ca495991b7852b855" := by
  decide

/-- Sanity check: HMAC-SHA256 test case 2 of RFC 4231, run through the same
UTF-8 string path the login code uses. -/
theorem hmac_rfc4231_case2 :
    hexOfBytes (hmacSha256 (strBytes "Jefe")
        (strBytes "what do ya want for nothing?")) =
      "5bdcc146bf60754e6a042426089575c75a003f089d2739839dec58b964ec3843" := by
  decide

theorem timerInv_mk (cfg : WebSocketConfig) : TimerInv (mkSession cfg) := by
  constructor <;> simp [mkSession]

theorem stopPing_ping (s : SessionState) (h : TimerInv s) :
    (stopPing s).pingTimer = none ∧ (stopPing s).livePing = [] := by
  obtain ⟨h1, _⟩ := h
  unfold stopPing
  cases hp : s.pingTimer with
  | none =>
    rcases h1 with h1 | h1
    · exact ⟨hp, h1⟩
    · rw [hp] at h1; simp at h1; exact ⟨hp, h1⟩
  | some t =>
    refine ⟨rfl, ?_⟩
    rcases h1 with h1 | h1
    · simp [h1]
    · rw [hp] at h1; simp [h1]

theorem stopPing_reconnect (s : SessionState) :
    (stopPing s).reconnectTimer = s.reconnectTimer ∧
    (stopPing s).liveReconnect = s.liveReconnect := by
  unfold stopPing; cases s.pingTimer <;> simp

theorem clearRT_reconnect (s : SessionState) (h : TimerInv s) :
    (clearReconnectTimer s).reconnectTimer = none ∧
    (clearReconnectTimer s).liveReconnect = [] := by
  obtain ⟨_, h2⟩ := h
  unfold clearReconnectTimer
  cases hp : s.reconnectTimer with
  | none =>
    rcases h2 with h2 | h2
    · exact ⟨hp, h2⟩
    · rw [hp] at h2; simp at h2; exact ⟨hp, h2⟩
  | some t =>
    refine ⟨rfl, ?_⟩
    rcases h2 with h2 | h2
    · simp [h2]
    · rw [hp] at h2; simp [h2]

theorem clearRT_ping (s : SessionState) :
    (clearReconnectTimer s).pingTimer = s.pingTimer ∧
    (clearReconnectTimer s).livePing = s.livePing := by
  unfold clearReconnectTimer; cases s.reconnectTimer <;> simp

theorem timerInv_stopPing (s : SessionState) (h : TimerInv s) :
    TimerInv (stopPing s) := by
  obtain ⟨hp, hl⟩ := stopPing_ping s h
  obtain ⟨hr, hlr⟩ := stopPing_reconnect s
  exact ⟨Or.inl hl, by rw [hlr, hr]; exact h.2⟩

theorem timerInv_clearRT (s : SessionState) (h : TimerInv s) :
    TimerInv (clearReconnectTimer s) := by
  obtain ⟨hp, hl⟩ := clearRT_reconnect s h
  obtain ⟨hr, hlr⟩ := clearRT_ping s
  exact ⟨by rw [hlr, hr]; exact h.1, Or.inl hl⟩

theorem timerInv_startPing (s : SessionState) (h : TimerInv s) :
    TimerInv (startPing s) := by
  obtain ⟨hp, hl⟩ := stopPing_ping s h
  obtain ⟨hr, hlr⟩ := stopPing_reconnect s
  unfold startPing
  refine ⟨Or.inr ?_, ?_⟩
  · simp [hl]
  · simp only [hlr, hr]
    exact h.2

theorem timerInv_scheduleReconnect (s : SessionState) (h : TimerInv s) :
    TimerInv (scheduleReconnect s) := by
  obtain ⟨hp, hl⟩ := clearRT_reconnect s h
  obtain ⟨hr, hlr⟩ := clearRT_ping s
  unfold scheduleReconnect
  refine ⟨?_, Or.inr ?_⟩
  · simp only [hlr, hr]
    exact h.1
  · simp [hl]

theorem timerInv_congr {s s' : SessionState} (h : TimerInv s)
    (e1 : s'.pingTimer = s.pingTimer) (e2 : s'.livePing = s.livePing)
    (e3 : s'.reconnectTimer = s.reconnectTimer)
    (e4 : s'.liveReconnect = s.liveReconnect) : TimerInv s' := by
  unfold TimerInv at *
  rw [e1, e2, e3, e4]
  exact h

theorem timerInv_connectCall (s : SessionState) (h : TimerInv s) :
    TimerInv (connectCall s) :=
  timerInv_congr h rfl rfl rfl rfl

theorem wsMarkOpen_timers (s : SessionState) :
    (wsMarkOpen s).pingTimer = s.pingTimer ∧ (wsMarkOpen s).livePing = s.livePing ∧
    (wsMarkOpen s).reconnectTimer = s.reconnectTimer ∧
    (wsMarkOpen s).liveReconnect = s.liveReconnect := by
  unfold wsMarkOpen; cases s.ws <;> simp

theorem timerInv_openEvent (s : SessionState) (h : TimerInv s) :
    TimerInv (openEvent s).1 := by
  obtain ⟨e1, e2, e3, e4⟩ := wsMarkOpen_timers s
  have h1 : TimerInv (wsMarkOpen s) := timerInv_congr h e1 e2 e3 e4
  have h2 : TimerInv { wsMarkOpen s with isConnected := true } :=
    timerInv_congr h1 rfl rfl rfl rfl
  exact timerInv_startPing _ h2

theorem stopPing_rest (s : SessionState) :
    (stopPing s).ws = s.ws ∧ (stopPing s).isConnected = s.isConnected ∧
    (stopPing s).isLoggedIn = s.isLoggedIn ∧ (stopPing s).config = s.config ∧
    (stopPing s).liveWs = s.liveWs ∧ (stopPing s).nextWsId = s.nextWsId := by
  unfold stopPing; cases s.pingTimer <;> simp

theorem clearRT_rest (s : SessionState) :
    (clearReconnectTimer s).ws = s.ws ∧
    (clearReconnectTimer s).isConnected = s.isConnected ∧
    (clearReconnectTimer s).isLoggedIn = s.isLoggedIn ∧
    (clearReconnectTimer s).config = s.config ∧
    (clearReconnectTimer s).liveWs = s.liveWs ∧
    (clearReconnectTimer s).nextWsId = s.nextWsId := by
  unfold clearReconnectTimer; cases s.reconnectTimer <;> simp

theorem timerInv_closeHandler (code : Nat) (reason : String) (cid : Nat)
    (s : SessionState) (h : TimerInv s) :
    TimerInv (closeHandler code reason cid s).1 := by
  have h1 : TimerInv { s with isConnected := false, isLoggedIn := false, liveWs := s.liveWs.erase cid } :=
    timerInv_congr h rfl rfl rfl rfl
  have h2 := timerInv_stopPing _ h1
  unfold closeHandler
  dsimp only
  split
  · exact timerInv_scheduleReconnect _ h2
  · exact h2

theorem hpdu_fst (s : SessionState) (m : WebSocketMessage) :
    (handlePrivateDataUpdate s m).1 = s := by
  unfold handlePrivateDataUpdate
  split_ifs <;> rfl

theorem handleMessage_fst (s : SessionState) (m : WebSocketMessage) :
    (handleMessage s m).1 = s ∨
    (handleMessage s m).1 = { s with isLoggedIn := true } := by
  unfold handleMessage
  split
  · exact Or.inl rfl
  · split
    · split
      · exact Or.inr rfl
      · exact Or.inl rfl
    · split
      · exact Or.inl rfl
      · exact Or.inl (hpdu_fst s m)

theorem timerInv_rawMessage (s : SessionState)
    (r : Except String WebSocketMessage) (h : TimerInv s) :
    TimerInv (rawMessage s r).1 := by
  cases r with
  | error e => exact h
  | ok m =>
    have he : (rawMessage s (Except.ok m)).1 = (handleMessage s m).1 := rfl
    rw [he]
    rcases handleMessage_fst s m with hm | hm <;> rw [hm]
    · exact h
    · exact timerInv_congr h rfl rfl rfl rfl

theorem disconnect_fields (s : SessionState) (h : TimerInv s) :
    (disconnectCall s).pingTimer = none ∧ (disconnectCall s).livePing = [] ∧
    (disconnectCall s).reconnectTimer = none ∧
    (disconnectCall s).liveReconnect = [] ∧ (disconnectCall s).ws = none ∧
    (disconnectCall s).isConnected = false ∧
    (disconnectCall s).isLoggedIn = false ∧
    (disconnectCall s).config.autoReconnect = false := by
  unfold disconnectCall
  dsimp only
  set s1 : SessionState := { s with config := { s.config with autoReconnect := false } } with hs1
  have h1 : TimerInv s1 := timerInv_congr h rfl rfl rfl rfl
  have hIA := timerInv_stopPing s1 h1
  obtain ⟨r1, r2⟩ := clearRT_reconnect (stopPing s1) hIA
  obtain ⟨q1, q2⟩ := clearRT_ping (stopPing s1)
  obtain ⟨p1, p2⟩ := stopPing_ping s1 h1
  obtain ⟨_, _, _, cA, _, _⟩ := stopPing_rest s1
  obtain ⟨_, _, _, cB, _, _⟩ := clearRT_rest (stopPing s1)
  have hcfg : (clearReconnectTimer (stopPing s1)).config.autoReconnect = false := by
    rw [cB, cA, hs1]
  cases hws : (clearReconnectTimer (stopPing s1)).ws with
  | none => simp [hws, q1, p1, q2, p2, r1, r2, hcfg]
  | some t => simp [hws, q1, p1, q2, p2, r1, r2, hcfg]

theorem timerInv_disconnect (s : SessionState) (h : TimerInv s) :
    TimerInv (disconnectCall s) := by
  obtain ⟨_, hl, _, hr, _⟩ := disconnect_fields s h
  exact ⟨Or.inl hl, Or.inl hr⟩

theorem timerInv_reconnectFire (h : Nat) (s : SessionState) (hI : TimerInv s) :
    TimerInv (reconnectFire h s) := by
  have h1 : TimerInv { s with liveReconnect := s.liveReconnect.erase h } := by
    refine ⟨hI.1, ?_⟩
    rcases hI.2 with h2 | h2
    · left; simp [h2]
    · cases ho : s.reconnectTimer with
      | none => rw [ho] at h2; simp at h2; left; simp [h2]
      | some t =>
        rw [ho] at h2
        simp only [Option.toList] at h2
        by_cases het : t = h
        · left; simp [h2, het]
        · right; simp [h2, List.erase, het]
  unfold reconnectFire
  dsimp only
  split
  · exact timerInv_connectCall _ h1
  · exact h1

/-- Every step of the session preserves the timer discipline. -/
theorem timerInv_step {s s' : SessionState} (hs : Step s s') (h : TimerInv s) :
    TimerInv s' := by
  cases hs with
  | connect s => exact timerInv_connectCall s h
  | openEv s => exact timerInv_openEvent s h
  | closeEv code reason cid s => exact timerInv_closeHandler code reason cid s h
  | msgEv r s => exact timerInv_rawMessage s r h
  | disconnect s => exact timerInv_disconnect s h
  | pingFired s => exact h
  | reconnectFired hh s => exact timerInv_reconnectFire hh s h
  | reconnectFailed s => exact timerInv_scheduleReconnect s h

/-- Every reachable state satisfies the timer discipline. -/
theorem timerInv_reachable {cfg : WebSocketConfig} {s : SessionState}
    (h : Reachable cfg s) : TimerInv s := by
  induction h with
  | refl => exact timerInv_mk cfg
  | tail _ hstep ih => exact timerInv_step hstep ih

theorem timerInv_length {s : SessionState} (h : TimerInv s) :
    s.livePing.length ≤ 1 ∧ s.liveReconnect.length ≤ 1 := by
  obtain ⟨h1, h2⟩ := h
  constructor
  · rcases h1 with h1 | h1 <;> rw [h1]
    · simp
    · cases s.pingTimer <;> simp
  · rcases h2 with h2 | h2 <;> rw [h2]
    · simp
    · cases s.reconnectTimer <;> simp

/-- With auto-reconnect off, a transport `close` notification leaves the
reconnect timer exactly as it was. -/
theorem closeHandler_no_reconnect (code : Nat) (reason : String) (cid : Nat)
    (s : SessionState) (h : s.config.autoReconnect = false) :
    ((closeHandler code reason cid s).1).reconnectTimer = s.reconnectTimer ∧
    ((closeHandler code reason cid s).1).liveReconnect = s.liveReconnect := by
  unfold closeHandler
  dsimp only
  obtain ⟨sr1, sr2⟩ := stopPing_reconnect { s with isConnected := false, isLoggedIn := false, liveWs := s.liveWs.erase cid }
  obtain ⟨_, _, _, sc, _, _⟩ := stopPing_rest { s with isConnected := false, isLoggedIn := false, liveWs := s.liveWs.erase cid }
  rw [if_neg]
  · exact ⟨sr1, sr2⟩
  · rw [sc]
    simp [h]

/-- A general idempotency helper: `disconnect()` is the identity on any state
already fully torn down. -/
theorem disconnect_idem_of (s : SessionState) (h1 : s.pingTimer = none)
    (h2 : s.reconnectTimer = none) (h3 : s.ws = none)
    (h4 : s.isConnected = false) (h5 : s.isLoggedIn = false)
    (h6 : s.config.autoReconnect = false) : disconnectCall s = s := by
  obtain ⟨ws, pt, rt, ic, il, cfg, lp, lr, lw, nt, nw⟩ := s
  obtain ⟨ak, sk, ar, ri, pi⟩ := cfg
  simp only at h1 h2 h3 h4 h5 h6
  subst h1 h2 h3 h4 h5 h6
  simp [disconnectCall, stopPing, clearReconnectTimer]

/-! ## Claims -/

/-- C1 counterexample: a filter-set acknowledgment (method `personal.filter`,
success payload, filter response channel) is routed by `handleMessage` to the
private-data dispatcher and emitted as the catch-all `message` event — the
router emits no filter-set-success or filter-set-failure event at all,
contradicting the claim that it emits one and does not route the message as a
catch-all. -/
theorem C1_filter_ack_counterexample :
    handleMessage (mkSession wcfg) filterAckMsg =
      (mkSession wcfg, [Event.messageEv filterAckMsg]) := by
  decide

/-- C1 amended: the router has no filter-acknowledgment branch.  A message
whose method is the filter-set method `personal.filter`, on any channel other
than `pong` and `rs.error`, falls through every control branch and is emitted
as exactly one catch-all `message` event, with the session state unchanged. -/
theorem C1_filter_ack_is_catchall (s : SessionState) (ch : String)
    (d : Option MsgData) (p : Option ParamVal) (sub : Option Bool)
    (h1 : ch ≠ "pong") (h2 : ch ≠ "rs.error") :
    handleMessage s (mkMsg (some "personal.filter") (some ch) d p sub) =
      (s, [Event.messageEv (mkMsg (some "personal.filter") (some ch) d p sub)]) := by
  simp [handleMessage, handlePrivateDataUpdate, mkMsg, h1, h2]

theorem C1_filter_ack_is_catchall_witness :
    handleMessage (mkSession wcfg)
        (mkMsg (some "personal.filter") (some "rs.personal.filter")
          (some ⟨true, 0⟩) none none) =
      (mkSession wcfg,
       [Event.messageEv (mkMsg (some "personal.filter")
          (some "rs.personal.filter") (some ⟨true, 0⟩) none none)]) :=
  C1_filter_ack_is_catchall (mkSession wcfg) "rs.personal.filter"
    (some ⟨true, 0⟩) none none (by decide) (by decide)

/-- C2 counterexample: from a state that is already Connected (one live
transport), a further `connect()` call proceeds without any failure and
allocates a second transport: afterwards two transports are live at once,
contradicting both the rejection and the at-most-one-live-transport claim. -/
theorem C2_connect_counterexample :
    connectedSession.isConnected = true ∧
    connectedSession.liveWs = [0] ∧
    (connectCall connectedSession).liveWs = [1, 0] ∧
    (connectCall connectedSession).ws = some ⟨1, 0⟩ := by
  decide

/-- C2 amended: `connect()` performs no already-connecting/connected check:
called in any state, also a Connected one, it unconditionally opens a fresh
transport, adds it to the live set without closing the prior transport, and
overwrites the session's handle. -/
theorem C2_connect_unguarded (s : SessionState) (h : s.isConnected = true) :
    (connectCall s).isConnected = true ∧
    (connectCall s).ws = some ⟨s.nextWsId, 0⟩ ∧
    (connectCall s).liveWs = s.nextWsId :: s.liveWs := by
  simp [connectCall, h]

theorem C2_connect_unguarded_witness :
    (connectCall connectedSession).isConnected = true ∧
    (connectCall connectedSession).ws = some ⟨connectedSession.nextWsId, 0⟩ ∧
    (connectCall connectedSession).liveWs =
      connectedSession.nextWsId :: connectedSession.liveWs :=
  C2_connect_unguarded connectedSession (by decide)

/-- C3: in every session state that is not logged in — including a connected
session that has not yet seen a login-success acknowledgment —
`setPersonalFilter` and every subscribe helper fail with the code's error
string before any frame is sent, and `login` fails the same way whenever the
session is not connected (the `Except.error` carries no frame list and no new
state: the session is unchanged). -/
theorem C3_precondition_failures (s : SessionState) (sub : Bool) (t : String)
    (filters : Option (List FilterEntry)) (fl : List FilterEntry)
    (syms : Option (List String)) (hnl : s.isLoggedIn = false) :
    (s.isConnected = false →
      loginCall sub t s = Except.error "WebSocket not connected") ∧
    setPersonalFilter filters s = Except.error "Must login first before setting filters" ∧
    subscribeToOrders syms s = Except.error "Must login first before setting filters" ∧
    subscribeToOrderDeals syms s = Except.error "Must login first before setting filters" ∧
    subscribeToPositions syms s = Except.error "Must login first before setting filters" ∧
    subscribeToAssets s = Except.error "Must login first before setting filters" ∧
    subscribeToADLLevels s = Except.error "Must login first before setting filters" ∧
    subscribeToMultiple fl s = Except.error "Must login first before setting filters" ∧
    subscribeToAll s = Except.error "Must login first before setting filters" := by
  refine ⟨fun hnc => ?_, ?_⟩
  · simp [loginCall, hnc]
  · simp [setPersonalFilter, subscribeToOrders, subscribeToOrderDeals,
      subscribeToPositions, subscribeToAssets, subscribeToADLLevels,
      subscribeToMultiple, subscribeToAll, hnl]

theorem C3_precondition_failures_witness :
    ((connectedSession.isConnected = false →
      loginCall true "1700000000000" connectedSession =
        Except.error "WebSocket not connected") ∧
    setPersonalFilter none connectedSession =
      Except.error "Must login first before setting filters" ∧
    subscribeToOrders none connectedSession =
      Except.error "Must login first before setting filters" ∧
    subscribeToOrderDeals none connectedSession =
      Except.error "Must login first before setting filters" ∧
    subscribeToPositions none connectedSession =
      Except.error "Must login first before setting filters" ∧
    subscribeToAssets connectedSession =
      Except.error "Must login first before setting filters" ∧
    subscribeToADLLevels connectedSession =
      Except.error "Must login first before setting filters" ∧
    subscribeToMultiple [] connectedSession =
      Except.error "Must login first before setting filters" ∧
    subscribeToAll connectedSession =
      Except.error "Must login first before setting filters") ∧
    ((mkSession wcfg).isConnected = false →
      loginCall true "1700000000000" (mkSession wcfg) =
        Except.error "WebSocket not connected") :=
  ⟨C3_precondition_failures connectedSession true "1700000000000" none [] none
      (by decide),
   (C3_precondition_failures (mkSession wcfg) true "1700000000000" none [] none
      rfl).1⟩

/-- C4: the login signature built by the code (hex HMAC-SHA256, keyed by the
secret, over the string concatenation `apiKey + reqTime`, UTF-8 encoded)
equals the spec's reading (HMAC over the concatenation of the encoded apiKey
followed by the encoded timestamp), and the computation is a pure function,
so signing the same triple twice yields identical output. -/
theorem C4_login_signature (apiKey secret reqTime : String) :
    loginSignature apiKey secret reqTime = specSignature apiKey secret reqTime ∧
    loginSignature apiKey secret reqTime = loginSignature apiKey secret reqTime := by
  refine ⟨?_, rfl⟩
  unfold loginSignature specSignature
  rw [strBytes_append]

/-- C5: a login acknowledgment (method `login`, not on the pong channel) with
a truthy success indicator sets the login flag and emits exactly one `login`
event with the payload; with a falsy indicator the state is returned
unchanged (the login flag stays false) and exactly one `loginError` event
fires with the payload. -/
theorem C5_login_ack_routing (s : SessionState) (ch : Option String)
    (d : MsgData) (p : Option ParamVal) (sub : Option Bool)
    (hch : ch ≠ some "pong") (hnl : s.isLoggedIn = false) :
    handleMessage s (mkMsg (some "login") ch (some d) p sub) =
      (if d.success then { s with isLoggedIn := true } else s,
       [if d.success then Event.login (some d) else Event.loginError (some d)]) ∧
    (handleMessage s (mkMsg (some "login") ch (some d) p sub)).1.isLoggedIn =
      d.success := by
  cases hsucc : d.success <;>
    simp [handleMessage, mkMsg, dataSuccess, hch, hsucc, hnl]

theorem C5_login_ack_routing_witness :
    (handleMessage (mkSession wcfg)
        (mkMsg (some "login") none (some ⟨false, 7⟩) none none) =
      (if (⟨false, 7⟩ : MsgData).success
        then { mkSession wcfg with isLoggedIn := true } else mkSession wcfg,
       [if (⟨false, 7⟩ : MsgData).success
        then Event.login (some ⟨false, 7⟩)
        else Event.loginError (some ⟨false, 7⟩)])) ∧
    (handleMessage (mkSession wcfg)
        (mkMsg (some "login") none (some ⟨false, 7⟩) none none)).1.isLoggedIn =
      (⟨false, 7⟩ : MsgData).success :=
  C5_login_ack_routing (mkSession wcfg) none ⟨false, 7⟩ none none
    (by decide) rfl

/-- C6: a frame whose text fails to decode is handled entirely inside the
message handler: the session emits exactly one generic `error` event carrying
the caught exception, the state (so the connection) is untouched, and the
very next frame is processed exactly as it would have been without the bad
frame. -/
theorem C6_parse_failure_isolated (s : SessionState) (e : String) :
    rawMessage s (Except.error e) = (s, [Event.errorEv (ErrVal.parseErr e)]) ∧
    (∀ r2, rawMessage (rawMessage s (Except.error e)).1 r2 = rawMessage s r2) :=
  ⟨rfl, fun _ => rfl⟩

/-- C7: after `disconnect()` auto-reconnect is off, both timers are cancelled
(none held, none live), the transport handle is released (closed and no
longer held), the state is Disconnected with the login flag false, a
subsequent transport `close` notification schedules no reconnect even though
auto-reconnect was on before the call, and the call is idempotent.  Stated
under the timer discipline `TimerInv`, which holds in every reachable state
(`timerInv_reachable`). -/
theorem C7_disconnect (s : SessionState) (h : TimerInv s) :
    (disconnectCall s).config.autoReconnect = false ∧
    (disconnectCall s).pingTimer = none ∧ (disconnectCall s).livePing = [] ∧
    (disconnectCall s).reconnectTimer = none ∧
    (disconnectCall s).liveReconnect = [] ∧
    (disconnectCall s).ws = none ∧
    (disconnectCall s).isConnected = false ∧
    (disconnectCall s).isLoggedIn = false ∧
    (∀ code reason cid,
      ((closeHandler code reason cid (disconnectCall s)).1).reconnectTimer = none ∧
      ((closeHandler code reason cid (disconnectCall s)).1).liveReconnect = []) ∧
    disconnectCall (disconnectCall s) = disconnectCall s := by
  obtain ⟨f1, f2, f3, f4, f5, f6, f7, f8⟩ := disconnect_fields s h
  refine ⟨f8, f1, f2, f3, f4, f5, f6, f7, ?_, ?_⟩
  · intro code reason cid
    obtain ⟨e1, e2⟩ := closeHandler_no_reconnect code reason cid (disconnectCall s) f8
    exact ⟨by rw [e1]; exact f3, by rw [e2]; exact f4⟩
  · exact disconnect_idem_of _ f1 f3 f5 f6 f7 f8

theorem C7_disconnect_witness :
    (disconnectCall connectedSession).config.autoReconnect = false ∧
    (disconnectCall connectedSession).pingTimer = none ∧
    (disconnectCall connectedSession).livePing = [] ∧
    (disconnectCall connectedSession).reconnectTimer = none ∧
    (disconnectCall connectedSession).liveReconnect = [] ∧
    (disconnectCall connectedSession).ws = none ∧
    (disconnectCall connectedSession).isConnected = false ∧
    (disconnectCall connectedSession).isLoggedIn = false ∧
    (∀ code reason cid,
      ((closeHandler code reason cid (disconnectCall connectedSession)).1).reconnectTimer = none ∧
      ((closeHandler code reason cid (disconnectCall connectedSession)).1).liveReconnect = []) ∧
    disconnectCall (disconnectCall connectedSession) = disconnectCall connectedSession :=
  C7_disconnect connectedSession (by constructor <;> decide)

/-- C8: in every session state reachable from construction, at most one
heartbeat timer and at most one reconnect timer are live, because `startPing`
and `scheduleReconnect` cancel the prior timer before allocating
(`timerInv_step` is the per-operation cancel-before-replace argument). -/
theorem C8_at_most_one_timer (cfg : WebSocketConfig) (s : SessionState)
    (h : Reachable cfg s) :
    s.livePing.length ≤ 1 ∧ s.liveReconnect.length ≤ 1 :=
  timerInv_length (timerInv_reachable h)

theorem C8_at_most_one_timer_witness :
    connectedSession.livePing.length ≤ 1 ∧
    connectedSession.liveReconnect.length ≤ 1 :=
  C8_at_most_one_timer wcfg connectedSession
    (Relation.ReflTransGen.tail
      (Relation.ReflTransGen.tail Relation.ReflTransGen.refl
        (Step.connect (mkSession wcfg)))
      (Step.openEv (connectCall (mkSession wcfg))))

/-- C9: the code violates the claim.  `disconnect()` during a pending connect
does reach Disconnected, but the `open` handler registered on the discarded
transport checks no desired state: when the late `open` notification fires,
it flips the session back to Connected, restarts the heartbeat and emits
`connected` — exactly the resurrection the spec requires implementers to
guard against. -/
theorem C9_late_open_resurrects :
    disconnectedWhileConnecting.isConnected = false ∧
    disconnectedWhileConnecting.ws = none ∧
    disconnectedWhileConnecting.pingTimer = none ∧
    ((openEvent disconnectedWhileConnecting).1).isConnected = true ∧
    ((openEvent disconnectedWhileConnecting).1).pingTimer.isSome = true ∧
    (openEvent disconnectedWhileConnecting).2 = [Event.connected] := by
  decide

/-- C10: a heartbeat-interval firing while the connected flag is false sends
no frame and raises no exception: the callback's connectivity check makes the
send-while-not-ready throw unreachable, and the state is unchanged. -/
theorem C10_ping_noop_when_disconnected (s : SessionState)
    (h : s.isConnected = false) : pingFire s = Except.ok (s, []) := by
  simp [pingFire, h]

theorem C10_ping_noop_when_disconnected_witness :
    pingFire (mkSession wcfg) = Except.ok (mkSession wcfg, []) :=
  C10_ping_noop_when_disconnected (mkSession wcfg) rfl

end MexcWS
